import Mathlib

/-!
Verification of the telemetry parsing and analytics engine of the
rutos-starlink-failover repository, against its natural-language
specification.

The Python sources embedded here are
`Starlink-RUTOS-Failover/AzureLogging/analyze-network-performance.py`
(CSV performance parser, threshold monitor, correlator, statistics
engine, mobility analysis) and
`Starlink-RUTOS-Failover/AzureLogging/analysis/log_parser.py`
(syslog line parser and event classifier).

Modelling conventions:
  * Python `float` values are modelled as exact rationals; the claims
    settled here depend only on comparisons and truncation, where the
    rational model and IEEE doubles agree on all inputs used.
  * Python exceptions (`ValueError`, `IndexError`) caught by a row- or
    line-level handler are modelled by `Option`: a raised-and-caught
    exception makes the parse return `none`.
  * Strings are processed as `List Char`; the helper functions below
    mirror the Python string primitives the code uses (`split`,
    `strip`, `lower`, `replace`, truthiness of a string).
-/

namespace Rutos

/-! ### Python string primitives -/

/-- Whitespace as used by `str.strip` / the regex class `\s`. -/
def wsChar (c : Char) : Bool := c.isWhitespace

/-- Word character, the regex class `\w` (ASCII approximation). -/
def wordChar (c : Char) : Bool := c.isAlphanum || c == '_'

/-- Python truthiness of a string: nonempty. -/
def pyTruthy (s : String) : Bool := !(s.toList.isEmpty)

/-- Split a character list at every occurrence of a separator character,
mirroring Python `str.split(sep)` for a one-character separator
(in particular, splitting the empty string yields one empty field). -/
def splitOnCharList (sep : Char) : List Char → List (List Char)
  | [] => [[]]
  | c :: cs =>
    match splitOnCharList sep cs with
    | [] => [[]]
    | g :: gs => if c == sep then [] :: g :: gs else (c :: g) :: gs

/-- Python `s.split(sep)` for a one-character separator. -/
def pySplit (s : String) (sep : Char) : List String :=
  (splitOnCharList sep s.toList).map fun cs => ⟨cs⟩

/-- Python `s.strip()`. -/
def pyStrip (s : String) : String :=
  ⟨((s.toList.dropWhile wsChar).reverse.dropWhile wsChar).reverse⟩

/-- Python `s.lower()` (ASCII approximation, sufficient here). -/
def pyLower (s : String) : String := ⟨s.toList.map Char.toLower⟩

/-- Python `s.replace("Z", "+00:00")` as used on CSV timestamps:
every occurrence of the character `Z` is replaced. -/
def replaceZList : List Char → List Char
  | [] => []
  | c :: cs =>
    if c == 'Z' then '+' :: '0' :: '0' :: ':' :: '0' :: '0' :: replaceZList cs
    else c :: replaceZList cs

/-- Python `s.replace("Z", "+00:00")`. -/
def pyReplaceZ (s : String) : String := ⟨replaceZList s.toList⟩

/-- Substring containment, Python `needle in hay` on strings. -/
def containsList (needle : List Char) : List Char → Bool
  | [] => needle.isEmpty
  | c :: cs => needle.isPrefixOf (c :: cs) || containsList needle cs

/-- Python `needle in hay` for strings. -/
def pyContains (hay needle : String) : Bool := containsList needle.toList hay.toList

/-- Python `any(k in s for k in kws)`. -/
def containsAny (s : String) (kws : List String) : Bool :=
  kws.any fun k => pyContains s k

/-! ### Python numeric conversions -/

/-- Numeric value of a run of decimal digits. -/
def digitsVal (cs : List Char) : ℕ :=
  cs.foldl (fun acc c => 10 * acc + (c.toNat - 48)) 0

/-- A nonempty all-digit run. -/
def allDigits (cs : List Char) : Bool := !cs.isEmpty && cs.all Char.isDigit

/-- Python `int(s)`: optional sign followed by digits; `none` models
`ValueError`. -/
def pyInt? (s : String) : Option ℤ :=
  match s.toList with
  | '-' :: cs => if allDigits cs then some (-(digitsVal cs : ℤ)) else none
  | '+' :: cs => if allDigits cs then some (digitsVal cs : ℤ) else none
  | cs => if allDigits cs then some (digitsVal cs : ℤ) else none

/-- Value of an unsigned decimal literal (integer digits, with an
optional dot and fraction digits), as an exact rational. -/
def decimalVal (intPart fracPart : List Char) : ℚ :=
  (digitsVal intPart : ℚ) + (digitsVal fracPart : ℚ) / (10 : ℚ) ^ fracPart.length

/-- Unsigned part of Python `float(s)` on plain decimal literals:
`"12"`, `"12.5"`, `"12."`, `".5"` are accepted; at least one digit is
required overall.  (Exponent and special forms, which the telemetry
rows never use, are not modelled; on the rows considered here this
agrees with Python `float`.) -/
def pyFloatUnsigned? (cs : List Char) : Option ℚ :=
  match cs.splitOn '.' with
  | [ipart] => if allDigits ipart then some (decimalVal ipart []) else none
  | [ipart, fpart] =>
    if ipart.all Char.isDigit && fpart.all Char.isDigit
        && !(ipart.isEmpty && fpart.isEmpty) then
      some (decimalVal ipart fpart)
    else none
  | _ => none

/-- Python `float(s)` on plain decimal literals; `none` models
`ValueError`. -/
def pyFloat? (s : String) : Option ℚ :=
  match s.toList with
  | '-' :: cs => (pyFloatUnsigned? cs).map (fun q => -q)
  | '+' :: cs => pyFloatUnsigned? cs
  | cs => pyFloatUnsigned? cs

/-- Python `int(x)` on a number: truncation toward zero. -/
def pyTrunc (q : ℚ) : ℤ := if q < 0 then ⌈q⌉ else ⌊q⌋

/-! ### `datetime` model -/

/-- A calendar date (`datetime.date`), the reference date extracted from
a blob name. -/
structure PyDate where
  year : ℤ
  month : ℕ
  day : ℕ
deriving DecidableEq, Repr

/-- A `datetime.datetime` value: calendar fields plus an optional fixed
UTC offset in minutes (the `tzinfo` attached by `fromisoformat` when the
row carries an offset). -/
structure PyDateTime where
  year : ℤ
  month : ℕ
  day : ℕ
  hour : ℕ
  minute : ℕ
  second : ℕ
  tzMinutes : Option ℤ := none
deriving DecidableEq, Repr

/-- Model of `datetime.combine(log_date, datetime.min.time())`: midnight of the
reference date. -/
def midnight (d : PyDate) : PyDateTime :=
  { year := d.year, month := d.month, day := d.day,
    hour := 0, minute := 0, second := 0, tzMinutes := none }

/-- Gregorian leap year, as `calendar`/`datetime` implement it. -/
def isLeapYear (y : ℤ) : Bool := y % 4 == 0 && (y % 100 != 0 || y % 400 == 0)

/-- Number of days of a month, used by `datetime` validation. -/
def daysInMonth (y : ℤ) (m : ℕ) : ℕ :=
  if m == 2 then (if isLeapYear y then 29 else 28)
  else if m == 4 || m == 6 || m == 9 || m == 11 then 30
  else 31

/-- Two decimal digits. -/
def twoDigits? (a b : Char) : Option ℕ :=
  if a.isDigit && b.isDigit then some (digitsVal [a, b]) else none

/-- Optional UTC-offset suffix accepted by `datetime.fromisoformat`:
empty, or a sign followed by `HH:MM` (hours below 24, minutes below
60), giving the offset in minutes. -/
def isoOffset? : List Char → Option (Option ℤ)
  | [] => some none
  | sign :: h1 :: h2 :: ':' :: m1 :: m2 :: [] =>
    match twoDigits? h1 h2, twoDigits? m1 m2 with
    | some oh, some om =>
      if sign == '+' && oh < 24 && om < 60 then some (some (oh * 60 + om))
      else if sign == '-' && oh < 24 && om < 60 then some (some (-(oh * 60 + om : ℤ)))
      else none
    | _, _ => none
  | _ => none

/-- Model of `datetime.fromisoformat` on the timestamp shapes the telemetry rows
use: `YYYY-MM-DD`, optionally followed by a one-character separator and
`HH:MM:SS`, optionally followed by a `±HH:MM` offset.  Field ranges are
validated as the `datetime` constructor does (months 1–12, days within
the month, hours below 24, minutes/seconds below 60); `none` models
`ValueError`.  (The rarer abbreviated time forms and fractional seconds
accepted by Python are not used by the telemetry rows and are not
modelled.) -/
def fromIsoformat? (s : String) : Option PyDateTime :=
  match s.toList with
  | y1 :: y2 :: y3 :: y4 :: '-' :: m1 :: m2 :: '-' :: d1 :: d2 :: rest =>
    if [y1, y2, y3, y4].all Char.isDigit then
      match twoDigits? m1 m2, twoDigits? d1 d2 with
      | some mo, some dy =>
        let y : ℤ := (digitsVal [y1, y2, y3, y4] : ℤ)
        if 1 ≤ mo && mo ≤ 12 && 1 ≤ dy && dy ≤ daysInMonth y mo then
          match rest with
          | [] => some { year := y, month := mo, day := dy,
                         hour := 0, minute := 0, second := 0 }
          | _ :: h1 :: h2 :: ':' :: mi1 :: mi2 :: ':' :: s1 :: s2 :: tzrest =>
            match twoDigits? h1 h2, twoDigits? mi1 mi2, twoDigits? s1 s2 with
            | some hh, some mm, some ss =>
              if hh < 24 && mm < 60 && ss < 60 then
                (isoOffset? tzrest).map fun tz =>
                  { year := y, month := mo, day := dy,
                    hour := hh, minute := mm, second := ss, tzMinutes := tz }
              else none
            | _, _, _ => none
          | _ => none
        else none
      | _, _ => none
    else none
  | _ => none

/-- Three-letter month abbreviation as matched by `strptime`'s `%b`
(case-insensitive). -/
def monthAbbr? (a b c : Char) : Option ℕ :=
  match a.toLower, b.toLower, c.toLower with
  | 'j', 'a', 'n' => some 1
  | 'f', 'e', 'b' => some 2
  | 'm', 'a', 'r' => some 3
  | 'a', 'p', 'r' => some 4
  | 'm', 'a', 'y' => some 5
  | 'j', 'u', 'n' => some 6
  | 'j', 'u', 'l' => some 7
  | 'a', 'u', 'g' => some 8
  | 's', 'e', 'p' => some 9
  | 'o', 'c', 't' => some 10
  | 'n', 'o', 'v' => some 11
  | 'd', 'e', 'c' => some 12
  | _, _, _ => none

/-- Model of `datetime.strptime(f"{year} {ts}", "%Y %b %d %H:%M:%S")` applied to
the timestamp group captured from a syslog line: month abbreviation,
whitespace, one- or two-digit day, whitespace, `HH:MM:SS`.  Ranges are
validated as `datetime` construction does; `none` models `ValueError`
(e.g. an unknown month name, or a day that does not exist in the
month). -/
def strptimeSyslog (year : ℤ) (ts : String) : Option PyDateTime :=
  match ts.toList with
  | a :: b :: c :: rest =>
    match monthAbbr? a b c with
    | none => none
    | some mo =>
      let r1 := rest.dropWhile wsChar
      if rest.takeWhile wsChar == [] then none
      else
        let dd := r1.takeWhile Char.isDigit
        let r2 := r1.dropWhile Char.isDigit
        if dd.length == 0 || 2 < dd.length then none
        else
          let r3 := r2.dropWhile wsChar
          if r2.takeWhile wsChar == [] then none
          else
            match r3 with
            | h1 :: h2 :: ':' :: mi1 :: mi2 :: ':' :: s1 :: s2 :: [] =>
              match twoDigits? h1 h2, twoDigits? mi1 mi2, twoDigits? s1 s2 with
              | some hh, some mm, some ss =>
                let dy := digitsVal dd
                if 1 ≤ dy && dy ≤ daysInMonth year mo
                    && hh < 24 && mm < 60 && ss < 60 then
                  some { year := year, month := mo, day := dy,
                         hour := hh, minute := mm, second := ss }
                else none
              | _, _, _ => none
            | _ => none
  | _ => none

/-! ### CSV performance-record parser
(`analyze-network-performance.py`, `_parse_performance_data`) -/

/-- The eight mandatory fields (CSV columns 0–7). -/
structure BaseFields where
  timestamp : PyDateTime
  uptime_s : ℚ
  downlink_throughput_bps : ℚ
  uplink_throughput_bps : ℚ
  ping_drop_rate : ℚ
  ping_latency_ms : ℚ
  obstruction_duration_s : ℚ
  obstruction_fraction : ℚ
deriving DecidableEq, Repr

/-- The diagnostic block added when the row has more than 8 columns. -/
structure ExtFields where
  currently_obstructed : Bool
  snr : ℚ
  alerts_thermal_throttle : Bool
  alerts_thermal_shutdown : Bool
  dishy_state : String
  mobility_class : String
deriving DecidableEq, Repr

/-- The GPS block added when the row has more than 18 columns. -/
structure GpsFields where
  latitude : Option ℚ
  longitude : Option ℚ
  altitude_m : Option ℚ
  speed_kmh : Option ℚ
  heading_deg : Option ℚ
  gps_source : String
  gps_satellites : ℤ
  gps_accuracy_m : Option ℚ
deriving DecidableEq, Repr

/-- One materialized performance record: the `performance_entry` dict.
The two optional blocks are present exactly when their `len(parts)`
guard held during parsing. -/
structure PerformanceEntry where
  base : BaseFields
  ext : Option ExtFields
  gps : Option GpsFields
deriving DecidableEq, Repr

/-- Model of `float(s) if s else 0`: the idiom used for the numeric base
fields. -/
def floatOrZero? (s : String) : Option ℚ :=
  if pyTruthy s then pyFloat? s else some 0

/-- Model of `float(s) if s and s != "" else None`: the idiom used for the
optional GPS numeric fields (the two conditions are the same test). -/
def optFloatCell? (s : String) : Option (Option ℚ) :=
  if pyTruthy s then (pyFloat? s).map some else some none

/-- Model of `s.lower() == "true" if s else False`: the idiom used for the
boolean diagnostic fields. -/
def boolCell (s : String) : Bool :=
  if pyTruthy s then pyLower s == "true" else false

/-- Columns 0–7 of a row with at least 8 fields.  A `ValueError` from
`datetime.fromisoformat` or `float` is modelled by `none`. -/
def parseBase (parts : List String) : Option BaseFields := do
  let t ← fromIsoformat? (pyReplaceZ (parts.getD 0 ""))
  let up ← floatOrZero? (parts.getD 1 "")
  let dl ← floatOrZero? (parts.getD 2 "")
  let ul ← floatOrZero? (parts.getD 3 "")
  let drop ← floatOrZero? (parts.getD 4 "")
  let lat ← floatOrZero? (parts.getD 5 "")
  let obsd ← floatOrZero? (parts.getD 6 "")
  let obsf ← floatOrZero? (parts.getD 7 "")
  some { timestamp := t, uptime_s := up, downlink_throughput_bps := dl,
         uplink_throughput_bps := ul, ping_drop_rate := drop,
         ping_latency_ms := lat, obstruction_duration_s := obsd,
         obstruction_fraction := obsf }

/-- The `len(parts) > 8` update block (columns 8–14; column 12 is
skipped by the source).  All subscripts here are guarded by length
tests in the source, so only `float(parts[9])` can fail. -/
def parseExt (parts : List String) : Option ExtFields := do
  let co := boolCell (parts.getD 8 "")
  let snr ← if 9 < parts.length && pyTruthy (parts.getD 9 "") then
              pyFloat? (parts.getD 9 "")
            else some 0
  let att := if 10 < parts.length then boolCell (parts.getD 10 "") else false
  let ats := if 11 < parts.length then boolCell (parts.getD 11 "") else false
  let ds := if 13 < parts.length then parts.getD 13 "" else ""
  let mc := if 14 < parts.length then parts.getD 14 "" else ""
  some { currently_obstructed := co, snr := snr,
         alerts_thermal_throttle := att, alerts_thermal_shutdown := ats,
         dishy_state := ds, mobility_class := mc }

/-- The `len(parts) > 18` GPS update block (columns 18–25).  The source
reads `parts[19]` with no length guard of its own — `parts.get? 19`
models the possible `IndexError`, which the row-level handler turns
into a rejected row.  Columns 20–25 are length-guarded in the
source. -/
def parseGps (parts : List String) : Option GpsFields :=
  match optFloatCell? (parts.getD 18 "") with
  | none => none
  | some lat =>
    match parts.get? 19 with
    | none => none
    | some s19 =>
      match optFloatCell? s19 with
      | none => none
      | some lon =>
        match (if 20 < parts.length then optFloatCell? (parts.getD 20 "")
               else some none) with
        | none => none
        | some alt =>
          match (if 21 < parts.length then optFloatCell? (parts.getD 21 "")
                 else some none) with
          | none => none
          | some spd =>
            match (if 22 < parts.length then optFloatCell? (parts.getD 22 "")
                   else some none) with
            | none => none
            | some hdg =>
              match (if 24 < parts.length && pyTruthy (parts.getD 24 "") then
                     pyInt? (parts.getD 24 "") else some 0) with
              | none => none
              | some sats =>
                match (if 25 < parts.length then optFloatCell? (parts.getD 25 "")
                       else some none) with
                | none => none
                | some acc =>
                  some { latitude := lat, longitude := lon, altitude_m := alt,
                         speed_kmh := spd, heading_deg := hdg,
                         gps_source := if 23 < parts.length then parts.getD 23 ""
                                       else "none",
                         gps_satellites := sats, gps_accuracy_m := acc }

/-- One iteration of the row loop of `_parse_performance_data`, applied
to an already-split row: rows with fewer than 8 fields are ignored, and
a `ValueError`/`IndexError` inside the `try` block rejects the row
(`none`). -/
def parsePerformanceRow (parts : List String) : Option PerformanceEntry :=
  if 8 ≤ parts.length then
    match parseBase parts with
    | none => none
    | some base =>
      match (if 8 < parts.length then (parseExt parts).map some
             else some none) with
      | none => none
      | some ext =>
        match (if 18 < parts.length then (parseGps parts).map some
               else some none) with
        | none => none
        | some gps => some { base := base, ext := ext, gps := gps }
  else none

/-- The row loop of `_parse_performance_data` over a list of data lines
(header already handled): blank lines are skipped, each remaining line
is split on commas and parsed, and exactly the successfully parsed rows
are appended to `performance_data`. -/
def rowsToEntries (lines : List String) : List PerformanceEntry :=
  lines.filterMap fun line =>
    if pyTruthy (pyStrip line) then parsePerformanceRow (pySplit line ',')
    else none

/-! ### Threshold monitor
(`analyze-network-performance.py`, `_check_performance_thresholds`) -/

/-- One violation description appended by `_check_performance_thresholds`.
The source appends formatted strings; they are modelled as tags carrying
the offending metric value. -/
inductive Violation where
  | highLatency (ms : ℚ)
  | highPacketLoss (rate : ℚ)
  | lowDownlink (bps : ℚ)
  | highObstruction (fraction : ℚ)
deriving DecidableEq, Repr

/-- The violation list built by `_check_performance_thresholds`, in the
order the source appends: latency above 600 ms, drop rate above 0.05,
downlink below 10,000,000 bps, obstruction fraction above 0.02. -/
def checkPerformanceThresholds (e : PerformanceEntry) : List Violation :=
  (if 600 < e.base.ping_latency_ms then
     [Violation.highLatency e.base.ping_latency_ms] else [])
  ++ (if 1/20 < e.base.ping_drop_rate then
     [Violation.highPacketLoss e.base.ping_drop_rate] else [])
  ++ (if e.base.downlink_throughput_bps < 10000000 then
     [Violation.lowDownlink e.base.downlink_throughput_bps] else [])
  ++ (if 1/50 < e.base.obstruction_fraction then
     [Violation.highObstruction e.base.obstruction_fraction] else [])

/-! ### Statistics engine
(`analyze-network-performance.py`, `generate_threshold_recommendations`) -/

/-- The latency series `[p["ping_latency_ms"] for p in performance_data]`. -/
def latencies (data : List PerformanceEntry) : List ℚ :=
  data.map fun p => p.base.ping_latency_ms

/-- The packet-loss series. -/
def packetLosses (data : List PerformanceEntry) : List ℚ :=
  data.map fun p => p.base.ping_drop_rate

/-- The downlink-throughput series. -/
def throughputs (data : List PerformanceEntry) : List ℚ :=
  data.map fun p => p.base.downlink_throughput_bps

/-- Python `sorted(xs)` on numbers: ascending stable sort (modelled by
insertion sort, which is stable and sorted like CPython timsort). -/
def sortedAsc (l : List ℚ) : List ℚ := l.insertionSort (· ≤ ·)

/-- The nearest-rank subscript `int(len(xs) * p)`. -/
def percentileIndex (n : ℕ) (p : ℚ) : ℕ := (pyTrunc ((n : ℚ) * p)).toNat

/-- Model of `sorted(xs)[int(len(xs) * p)] if xs else 0`.  The subscript is
always in range for nonempty `xs` (proved below), so the default value
of `getD` is never read and the model is faithful. -/
def nearestRank (l : List ℚ) (p : ℚ) : ℚ :=
  if l.isEmpty then 0 else (sortedAsc l).getD (percentileIndex l.length p) 0

/-- Model of `latency_95th`. -/
def latencyP95 (data : List PerformanceEntry) : ℚ :=
  nearestRank (latencies data) (95/100)

/-- Model of `latency_99th`. -/
def latencyP99 (data : List PerformanceEntry) : ℚ :=
  nearestRank (latencies data) (99/100)

/-- Model of `packet_loss_95th`. -/
def packetLossP95 (data : List PerformanceEntry) : ℚ :=
  nearestRank (packetLosses data) (95/100)

/-- Model of `throughput_5th`. -/
def throughputP5 (data : List PerformanceEntry) : ℚ :=
  nearestRank (throughputs data) (5/100)

/-- Python 3 `round` to an integer: round half to even. -/
def roundHalfEven (q : ℚ) : ℤ :=
  if q - ⌊q⌋ < 1/2 then ⌊q⌋
  else if 1/2 < q - ⌊q⌋ then ⌊q⌋ + 1
  else if ⌊q⌋ % 2 == 0 then ⌊q⌋ else ⌊q⌋ + 1

/-- Python `round(x, 2)`. -/
def pyRound2 (q : ℚ) : ℚ := (roundHalfEven (q * 100) : ℚ) / 100

/-- Python `round(x, 1)`. -/
def pyRound1 (q : ℚ) : ℚ := (roundHalfEven (q * 10) : ℚ) / 10

/-- The `recommended_thresholds` sub-dict of
`generate_threshold_recommendations`. -/
structure RecommendedThresholds where
  latency_warning_ms : ℤ
  latency_critical_ms : ℤ
  packet_loss_warning_pct : ℚ
  min_throughput_mbps : ℚ
deriving DecidableEq, Repr

/-- Model of `generate_threshold_recommendations`: for empty data the function
returns only an "Insufficient data" message (`none` here); otherwise
the recommended thresholds are derived from the empirical
percentiles. -/
def generateThresholdRecommendations
    (data : List PerformanceEntry) : Option RecommendedThresholds :=
  if data.isEmpty then none
  else some
    { latency_warning_ms := pyTrunc (latencyP95 data * (11/10)),
      latency_critical_ms := pyTrunc (latencyP99 data * (11/10)),
      packet_loss_warning_pct := pyRound2 (packetLossP95 data * 100 * (12/10)),
      min_throughput_mbps := pyRound1 (throughputP5 data / 1000000 * (8/10)) }

/-! ### Correlator
(`analyze-network-performance.py`, `correlate_events_and_performance`)

Timestamps are modelled as seconds (`ℤ`), so that
`abs((p["timestamp"] - event_time).total_seconds())` is `|p.timestamp - t0|`. -/

/-- The projection of a performance record used by the correlator. -/
structure PerfSample where
  timestamp : ℤ
  ping_latency_ms : ℚ
  ping_drop_rate : ℚ
deriving DecidableEq, Repr

/-- One emitted correlation. -/
structure Correlation where
  event_type : String
  timestamp : ℤ
  performance_samples : ℕ
  avg_latency_ms : ℚ
  avg_packet_loss_pct : ℚ
deriving DecidableEq, Repr

/-- The `relevant_performance` list comprehension: samples whose
timestamp differs from the event time by at most the half-window. -/
def relevantWindow (perf : List PerfSample) (t0 w : ℤ) : List PerfSample :=
  perf.filter fun p => decide (|p.timestamp - t0| ≤ w)

/-- Window selection for a failover event: half-window 1800 s. -/
def failoverRelevant (perf : List PerfSample) (t0 : ℤ) : List PerfSample :=
  relevantWindow perf t0 1800

/-- Window selection for a reboot event: half-window 3600 s. -/
def rebootRelevant (perf : List PerfSample) (t0 : ℤ) : List PerfSample :=
  relevantWindow perf t0 3600

/-- The correlation entry built for one event when its window is
non-empty. -/
def correlationFor (kind : String) (w : ℤ) (perf : List PerfSample)
    (t0 : ℤ) : Option Correlation :=
  let rel := relevantWindow perf t0 w
  if rel.isEmpty then none
  else some
    { event_type := kind, timestamp := t0, performance_samples := rel.length,
      avg_latency_ms := (rel.map fun p => p.ping_latency_ms).sum / rel.length,
      avg_packet_loss_pct :=
        (rel.map fun p => p.ping_drop_rate).sum / rel.length * 100 }

/-- Model of `correlate_events_and_performance`: reboot events (window 3600 s)
first, then failover events (window 1800 s); events with an empty
window produce no correlation. -/
def correlateEventsAndPerformance (rebootTimes failoverTimes : List ℤ)
    (perf : List PerfSample) : List Correlation :=
  (rebootTimes.filterMap fun t => correlationFor "reboot" 3600 perf t)
  ++ (failoverTimes.filterMap fun t => correlationFor "failover" 1800 perf t)

/-! ### Mobility analysis
(`analyze-network-performance.py`, `analyze_mobility_patterns` and
`_analyze_speed_performance_correlation`) -/

/-- Model of `p.get("speed_kmh")`: the key exists only when the GPS block was
parsed, and its value may itself be `None`. -/
def speedOf (e : PerformanceEntry) : Option ℚ := e.gps.bind fun g => g.speed_kmh

/-- Model of `mobile_data = [p for p in performance_data if p.get("speed_kmh") is not None]`. -/
def mobileRecords (data : List PerformanceEntry) : List PerformanceEntry :=
  data.filter fun p => (speedOf p).isSome

/-- The speed series of the mobile frame (every record in it carries a
speed). -/
def mobileSpeeds (mobile : List PerformanceEntry) : List ℚ :=
  mobile.map fun p => (speedOf p).getD 0

/-- Pearson correlation coefficient, as `pandas.Series.corr` computes
it (the default method): centred cross-moment over the square root of
the product of the centred second moments. -/
noncomputable def pearsonR (xs ys : List ℚ) : ℝ :=
  let n : ℚ := xs.length
  let xbar := xs.sum / n
  let ybar := ys.sum / n
  let sxy : ℚ := ((xs.zip ys).map fun p => (p.1 - xbar) * (p.2 - ybar)).sum
  let sxx : ℚ := (xs.map fun x => (x - xbar) ^ 2).sum
  let syy : ℚ := (ys.map fun y => (y - ybar) ^ 2).sum
  (sxy : ℝ) / Real.sqrt ((sxx : ℝ) * (syy : ℝ))

/-- The `correlations` dict of `_analyze_speed_performance_correlation`:
populated only under `"speed_kmh" in df.columns and len(df) > 10`.
The column test holds whenever the mobile frame is non-empty (every
mobile record carries the key), so the gate reduces to the length
test. -/
noncomputable def speedCorrelations
    (mobile : List PerformanceEntry) : Option (ℝ × ℝ × ℝ) :=
  if 10 < mobile.length then
    some
      (pearsonR (mobileSpeeds mobile) (mobile.map fun p => p.base.ping_latency_ms),
       pearsonR (mobileSpeeds mobile) (mobile.map fun p => p.base.ping_drop_rate),
       pearsonR (mobileSpeeds mobile)
         (mobile.map fun p => p.base.downlink_throughput_bps))
  else none

/-! ### Event classifier and log level
(`analysis/log_parser.py`, `_classify_event` and `_extract_log_level`) -/

/-- Python `s.upper()` (ASCII approximation, sufficient here). -/
def pyUpper (s : String) : String := ⟨s.toList.map Char.toUpper⟩

/-- FAILOVER keywords of `_classify_event`. -/
def failoverKws : List String := ["failover", "switching", "route change", "metric"]

/-- REBOOT keywords of `_classify_event`. -/
def rebootKws : List String := ["reboot", "restart", "startup", "shutdown"]

/-- NETWORK keywords of `_classify_event`. -/
def networkKws : List String := ["network", "interface", "connection", "link"]

/-- GPS keywords of `_classify_event`. -/
def gpsKws : List String := ["gps", "location", "coordinate"]

/-- STARLINK keywords of `_classify_event`. -/
def starlinkKws : List String := ["starlink", "dishy", "satellite"]

/-- SYSTEM process keywords of `_classify_event`. -/
def systemProcKws : List String := ["kernel", "systemd", "cron"]

/-- Model of `_classify_event`: a chain of early returns, so the result is the
single first-matching category in the order FAILOVER, REBOOT, NETWORK,
GPS, STARLINK, SYSTEM, with default OTHER. -/
def classifyEvent (process message : String) : String :=
  let m := pyLower message
  let p := pyLower process
  if containsAny m failoverKws then "FAILOVER"
  else if containsAny m rebootKws then "REBOOT"
  else if containsAny m networkKws then "NETWORK"
  else if containsAny m gpsKws then "GPS"
  else if containsAny m starlinkKws then "STARLINK"
  else if containsAny p systemProcKws then "SYSTEM"
  else "OTHER"

/-- Model of `_extract_log_level`. -/
def extractLogLevel (message : String) : String :=
  let mu := pyUpper message
  if containsAny mu ["ERROR", "ERR"] then "ERROR"
  else if containsAny mu ["WARN", "WARNING"] then "WARNING"
  else if containsAny mu ["INFO", "INFORMATION"] then "INFO"
  else if containsAny mu ["DEBUG"] then "DEBUG"
  else "UNKNOWN"

/-! ### Syslog line matchers

Hand-translations of the two regular expressions, as greedy scanners.
Both patterns are effectively deterministic: every greedy repetition is
over a character class disjoint from what must follow, so the maximal
run is the only viable one (the lone exception, `\s*(.+)` on an
all-whitespace remainder, is handled explicitly). -/

/-- The groups of the analyzer pattern
`(\w{3}\s+\d{1,2}\s+\d{2}:\d{2}:\d{2})\s+(\w+)\s+([^:]+):\s*(.+)`. -/
structure AnalyzerGroups where
  ts : String
  host : String
  process : String
  message : String
deriving DecidableEq, Repr

/-- Model of `re.match` of the analyzer syslog pattern
(`analyze-network-performance.py`, `_parse_log_line`). -/
def matchSyslogAnalyzer (line : String) : Option AnalyzerGroups :=
  match line.toList with
  | a :: b :: c :: rest =>
    if wordChar a && wordChar b && wordChar c then
      let sp1 := rest.takeWhile wsChar
      let r1 := rest.dropWhile wsChar
      if sp1.isEmpty then none else
      let dd := r1.takeWhile Char.isDigit
      let r2 := r1.dropWhile Char.isDigit
      if dd.length == 0 || 2 < dd.length then none else
      let sp2 := r2.takeWhile wsChar
      let r3 := r2.dropWhile wsChar
      if sp2.isEmpty then none else
      match r3 with
      | h1 :: h2 :: ':' :: m1 :: m2 :: ':' :: s1 :: s2 :: r4 =>
        if [h1, h2, m1, m2, s1, s2].all Char.isDigit then
          let ts : List Char :=
            [a, b, c] ++ sp1 ++ dd ++ sp2 ++ [h1, h2, ':', m1, m2, ':', s1, s2]
          let sp3 := r4.takeWhile wsChar
          let r5 := r4.dropWhile wsChar
          if sp3.isEmpty then none else
          let hostChars := r5.takeWhile wordChar
          let r6 := r5.dropWhile wordChar
          if hostChars.isEmpty then none else
          let sp4 := r6.takeWhile wsChar
          let r7 := r6.dropWhile wsChar
          if sp4.isEmpty then none else
          let procChars := r7.takeWhile fun ch => ch != ':'
          let r8 := r7.dropWhile fun ch => ch != ':'
          if procChars.isEmpty then none else
          match r8 with
          | ':' :: r9 =>
            -- `\s*(.+)`: if the remainder is all whitespace, the
            -- backtracked match leaves its last character for `.+`
            if r9.isEmpty then none else
            match r9.dropWhile wsChar with
            | [] =>
              (r9.getLast?).map fun ch =>
                { ts := ⟨ts⟩, host := ⟨hostChars⟩,
                  process := ⟨procChars⟩, message := ⟨[ch]⟩ }
            | msg =>
              some { ts := ⟨ts⟩, host := ⟨hostChars⟩,
                     process := ⟨procChars⟩, message := ⟨msg⟩ }
          | _ => none
        else none
      | _ => none
    else none
  | _ => none

/-- The groups of the log_parser pattern
`^(\w{3}\s+\d{1,2}\s+\d{2}:\d{2}:\d{2})\s+(\S+)\s+([^:\[]+)(?:\[(\d+)\])?\s*:\s*(.*)$`. -/
structure ParserGroups where
  ts : String
  host : String
  process : String
  pid : Option String
  message : String
deriving DecidableEq, Repr

/-- Model of `re.match` of the log_parser syslog pattern
(`analysis/log_parser.py`, `_parse_log_line`). -/
def matchSyslogLogParser (line : String) : Option ParserGroups :=
  match line.toList with
  | a :: b :: c :: rest =>
    if wordChar a && wordChar b && wordChar c then
      let sp1 := rest.takeWhile wsChar
      let r1 := rest.dropWhile wsChar
      if sp1.isEmpty then none else
      let dd := r1.takeWhile Char.isDigit
      let r2 := r1.dropWhile Char.isDigit
      if dd.length == 0 || 2 < dd.length then none else
      let sp2 := r2.takeWhile wsChar
      let r3 := r2.dropWhile wsChar
      if sp2.isEmpty then none else
      match r3 with
      | h1 :: h2 :: ':' :: m1 :: m2 :: ':' :: s1 :: s2 :: r4 =>
        if [h1, h2, m1, m2, s1, s2].all Char.isDigit then
          let ts : List Char :=
            [a, b, c] ++ sp1 ++ dd ++ sp2 ++ [h1, h2, ':', m1, m2, ':', s1, s2]
          let sp3 := r4.takeWhile wsChar
          let r5 := r4.dropWhile wsChar
          if sp3.isEmpty then none else
          let hostChars := r5.takeWhile fun ch => !wsChar ch
          let r6 := r5.dropWhile fun ch => !wsChar ch
          if hostChars.isEmpty then none else
          let sp4 := r6.takeWhile wsChar
          let r7 := r6.dropWhile wsChar
          if sp4.isEmpty then none else
          let procChars := r7.takeWhile fun ch => ch != ':' && ch != '['
          let r8 := r7.dropWhile fun ch => ch != ':' && ch != '['
          if procChars.isEmpty then none else
          match r8 with
          | '[' :: r9 =>
            let ds := r9.takeWhile Char.isDigit
            let r10 := r9.dropWhile Char.isDigit
            if ds.isEmpty then none else
            match r10 with
            | ']' :: r11 =>
              match r11.dropWhile wsChar with
              | ':' :: r12 =>
                some { ts := ⟨ts⟩, host := ⟨hostChars⟩, process := ⟨procChars⟩,
                       pid := some ⟨ds⟩, message := ⟨r12.dropWhile wsChar⟩ }
              | _ => none
            | _ => none
          | ':' :: r12 =>
            some { ts := ⟨ts⟩, host := ⟨hostChars⟩, process := ⟨procChars⟩,
                   pid := none, message := ⟨r12.dropWhile wsChar⟩ }
          | _ => none
        else none
      | _ => none
    else none
  | _ => none

/-! ### The two syslog line parsers -/

/-- A log entry of the monolithic analyzer. -/
structure LogEntryA where
  timestamp : PyDateTime
  hostname : String
  process : String
  message : String
  raw_line : String
deriving DecidableEq, Repr

/-- Model of `_parse_log_line` of `analyze-network-performance.py`: on a
timestamp `ValueError` it logs a warning and falls through to
`return None`, discarding the line. -/
def analyzerParseLine (line : String) (logDate : PyDate) : Option LogEntryA :=
  match matchSyslogAnalyzer line with
  | none => none
  | some g =>
    match strptimeSyslog logDate.year g.ts with
    | some t =>
      some { timestamp := t, hostname := g.host, process := g.process,
             message := g.message, raw_line := line }
    | none => none

/-- A log entry of the analysis module. -/
structure LogEntryL where
  timestamp : PyDateTime
  hostname : String
  process : String
  pid : Option ℤ
  message : String
  log_level : String
  event_type : String
deriving DecidableEq, Repr

/-- Model of `_parse_log_line` of `analysis/log_parser.py`: on a timestamp
`ValueError` it falls back to midnight of the reference date and still
returns the entry. -/
def logParserParseLine (line : String) (logDate : PyDate) : Option LogEntryL :=
  match matchSyslogLogParser line with
  | none => none
  | some g =>
    let t := (strptimeSyslog logDate.year g.ts).getD (midnight logDate)
    some { timestamp := t, hostname := g.host, process := g.process,
           pid := g.pid.bind pyInt?,
           message := pyStrip g.message,
           log_level := extractLogLevel g.message,
           event_type := classifyEvent g.process g.message }

/-! ### Concrete data used to evaluate the model -/

/-- A full 26-column telemetry row with valid values in every field. -/
def sampleRow : String :=
  "2024-01-15T12:00:00Z,3600,1000000,500000,0.01,45.5,0,0.005,false,5.5,false,false,x,CONNECTED,stationary,,,,59.123,18.456,10.5,0.0,180.0,gps,8,2.5"

/-- The same row with the longitude column (index 19) blank and every
other field unchanged. -/
def blankLonRow : String :=
  "2024-01-15T12:00:00Z,3600,1000000,500000,0.01,45.5,0,0.005,false,5.5,false,false,x,CONNECTED,stationary,,,,59.123,,10.5,0.0,180.0,gps,8,2.5"

/-- A neutral base-field block used to build synthetic records. -/
def baseZero : BaseFields :=
  { timestamp := { year := 2024, month := 1, day := 15,
                   hour := 12, minute := 0, second := 0 },
    uptime_s := 0, downlink_throughput_bps := 0, uplink_throughput_bps := 0,
    ping_drop_rate := 0, ping_latency_ms := 0,
    obstruction_duration_s := 0, obstruction_fraction := 0 }

/-- A synthetic record with a given latency and all other metrics
zero. -/
def mkLatencyEntry (lat : ℚ) : PerformanceEntry :=
  { base := { baseZero with ping_latency_ms := lat }, ext := none, gps := none }

/-- A synthetic record carrying a speed value (a mobile sample). -/
def mkMobileEntry : PerformanceEntry :=
  { base := baseZero, ext := none,
    gps := some { latitude := none, longitude := none, altitude_m := none,
                  speed_kmh := some 5, heading_deg := none,
                  gps_source := "gps", gps_satellites := 0,
                  gps_accuracy_m := none } }

/-- 25 records whose sorted latencies put 100 at the 95th-percentile
rank (index 23) and 100.5 at the 99th-percentile rank (index 24). -/
def c4data : List PerformanceEntry :=
  List.replicate 24 (mkLatencyEntry 100) ++ [mkLatencyEntry (201/2)]

/-- The recommendations computed from `c4data` (the computation
succeeds, so the default of `getD` is never used). -/
def c4rec : RecommendedThresholds :=
  (generateThresholdRecommendations c4data).getD
    { latency_warning_ms := 0, latency_critical_ms := 0,
      packet_loss_warning_pct := 0, min_throughput_mbps := 0 }

/-- The record materialized from `blankLonRow` (the parse succeeds, so
the default of `getD` is never used). -/
def blankLonEntry : PerformanceEntry :=
  (parsePerformanceRow (pySplit blankLonRow ',')).getD (mkLatencyEntry 0)

/-- Its GPS block. -/
def blankLonGps : GpsFields :=
  (blankLonEntry.gps).getD
    { latitude := none, longitude := none, altitude_m := none,
      speed_kmh := none, heading_deg := none, gps_source := "none",
      gps_satellites := 0, gps_accuracy_m := none }

/-- Two correlator samples, 1800 s and 1801 s after time 0. -/
def c7samples : List PerfSample :=
  [{ timestamp := 1800, ping_latency_ms := 50, ping_drop_rate := 0 },
   { timestamp := 1801, ping_latency_ms := 50, ping_drop_rate := 0 }]

/-- A syslog-shaped line whose month abbreviation is not a month, so
the regex matches but timestamp construction raises `ValueError`. -/
def fooLine : String := "Foo 14 10:30:45 RUTX50 procname: hello"

/-- The groups the log_parser pattern captures from `fooLine`. -/
def fooGroupsL : ParserGroups :=
  { ts := "Foo 14 10:30:45", host := "RUTX50", process := "procname",
    pid := none, message := "hello" }

/-- The groups the analyzer pattern captures from `fooLine`. -/
def fooGroupsA : AnalyzerGroups :=
  { ts := "Foo 14 10:30:45", host := "RUTX50", process := "procname",
    message := "hello" }

/-- The reference date used in the log-line evaluations. -/
def refDate : PyDate := { year := 2024, month := 1, day := 15 }

/-! ## Theorems -/

/-- Truncation toward zero is monotone. -/
theorem pyTrunc_mono {q r : ℚ} (h : q ≤ r) : pyTrunc q ≤ pyTrunc r := by
  unfold pyTrunc
  by_cases hq : q < 0 <;> by_cases hr : r < 0 <;> simp [hq, hr]
  · exact Int.ceil_le_ceil h
  · exact le_trans (Int.ceil_le.mpr (by push_cast; linarith))
      (Int.floor_nonneg.mpr (not_lt.mp hr))
  · exact absurd (lt_of_le_of_lt h hr) hq
  · exact Int.floor_le_floor h

/-- C1/C4/C10 helper: the nearest-rank subscript is in range for a
nonempty list and a percentile below one. -/
theorem percentileIndex_lt {n : ℕ} (p : ℚ) (hn : 1 ≤ n) (hp0 : 0 ≤ p)
    (hp1 : p < 1) : percentileIndex n p < n := by
  unfold percentileIndex pyTrunc
  have h0 : (0 : ℚ) ≤ (n : ℚ) * p := by positivity
  rw [if_neg (by linarith)]
  have hfl : ⌊(n : ℚ) * p⌋ < (n : ℤ) := by
    rw [Int.floor_lt]
    push_cast
    have hn0 : (0 : ℚ) < (n : ℚ) := by exact_mod_cast hn
    nlinarith
  have h1 : 0 ≤ ⌊(n : ℚ) * p⌋ := Int.floor_nonneg.mpr h0
  omega

/-- The nearest-rank subscripts are monotone in the percentile. -/
theorem percentileIndex_mono (n : ℕ) {p q : ℚ} (h : p ≤ q) :
    percentileIndex n p ≤ percentileIndex n q := by
  unfold percentileIndex
  have : pyTrunc ((n : ℚ) * p) ≤ pyTrunc ((n : ℚ) * q) :=
    pyTrunc_mono (by nlinarith [Nat.cast_nonneg (α := ℚ) n])
  omega


/-- Python `sorted` produces an ascending list. -/
theorem sortedAsc_sorted (l : List ℚ) : (sortedAsc l).Sorted (· ≤ ·) :=
  List.sorted_insertionSort _ l

/-- Sorting preserves the length. -/
theorem sortedAsc_length (l : List ℚ) : (sortedAsc l).length = l.length :=
  (List.perm_insertionSort _ l).length_eq

/-- Elements of the sorted list, read through `getD`, are ascending. -/
theorem sortedAsc_getD_mono (l : List ℚ) {i j : ℕ} (hij : i ≤ j)
    (hj : j < (sortedAsc l).length) :
    (sortedAsc l).getD i 0 ≤ (sortedAsc l).getD j 0 := by
  have hi : i < (sortedAsc l).length := lt_of_le_of_lt hij hj
  rw [List.getD_eq_getElem?_getD, List.getD_eq_getElem?_getD,
    List.getElem?_eq_getElem hi, List.getElem?_eq_getElem hj]
  rcases Nat.eq_or_lt_of_le hij with rfl | hlt
  · simp
  · have hp := sortedAsc_sorted l
    rw [List.Sorted, List.pairwise_iff_getElem] at hp
    simpa using hp i j hi hj hlt


/-- C1: the parser is meant to accept every historically seen column
count (8, 14, 19, 26), but a valid 19-column row is rejected: the
source reads `parts[19]` under only a `len(parts) > 18` guard, and the
resulting `IndexError` drops the row.  The 8-, 14- and 26-column
prefixes of the same row all materialize records. -/
theorem c1_nineteen_column_row_rejected :
    (parsePerformanceRow ((pySplit sampleRow ',').take 8)).isSome = true ∧
    (parsePerformanceRow ((pySplit sampleRow ',').take 14)).isSome = true ∧
    parsePerformanceRow ((pySplit sampleRow ',').take 19) = none ∧
    (parsePerformanceRow ((pySplit sampleRow ',').take 26)).isSome = true :=
  ⟨rfl, rfl, rfl, rfl⟩

/-- C8: a row that splits into fewer than 8 fields is rejected as
malformed, and appending such a row to the input leaves the
materialized record list unchanged. -/
theorem c8_short_rows_rejected (parts : List String) (lines : List String)
    (line : String) (h : parts.length < 8)
    (hline : (pySplit line ',').length < 8) :
    parsePerformanceRow parts = none ∧
    rowsToEntries (lines ++ [line]) = rowsToEntries lines := by
  have hrow : ∀ ps : List String, ps.length < 8 → parsePerformanceRow ps = none := by
    intro ps hps
    unfold parsePerformanceRow
    rw [if_neg (by omega)]
  refine ⟨hrow parts h, ?_⟩
  unfold rowsToEntries
  rw [List.filterMap_append]
  have : (if pyTruthy (pyStrip line) then parsePerformanceRow (pySplit line ',')
      else none) = none := by
    split
    · exact hrow _ hline
    · rfl
  simp [this]

/-- C8 witness: the empty row and a 7-field row are both rejected and
do not extend the record list. -/
theorem c8_witness :
    parsePerformanceRow (pySplit "1,2,3,4,5,6,7" ',') = none ∧
    rowsToEntries ([sampleRow] ++ ["1,2,3,4,5,6,7"]) = rowsToEntries [sampleRow] :=
  c8_short_rows_rejected (pySplit "1,2,3,4,5,6,7" ',') [sampleRow]
    "1,2,3,4,5,6,7" (by decide) (by decide)

/-- C9: the threshold check is monotone in latency: a record with
latency above 600 ms always yields the high-latency violation, and a
record with latency at most 600 ms never yields any high-latency
violation. -/
theorem c9_latency_threshold (e : PerformanceEntry) :
    (600 < e.base.ping_latency_ms →
      Violation.highLatency e.base.ping_latency_ms ∈ checkPerformanceThresholds e) ∧
    (e.base.ping_latency_ms ≤ 600 →
      ∀ q, Violation.highLatency q ∉ checkPerformanceThresholds e) := by
  constructor
  · intro h
    simp [checkPerformanceThresholds, h]
  · intro h q hq
    unfold checkPerformanceThresholds at hq
    have hlat : ¬ (600 < e.base.ping_latency_ms) := not_lt.mpr h
    rw [if_neg hlat] at hq
    split_ifs at hq <;> simp_all

/-- C9 witness: at latency 601 the violation is present; at 600 it is
absent. -/
theorem c9_witness :
    Violation.highLatency ((mkLatencyEntry 601).base.ping_latency_ms) ∈
      checkPerformanceThresholds (mkLatencyEntry 601) ∧
    Violation.highLatency 600 ∉ checkPerformanceThresholds (mkLatencyEntry 600) :=
  ⟨(c9_latency_threshold (mkLatencyEntry 601)).1 (by norm_num [mkLatencyEntry, baseZero]),
   (c9_latency_threshold (mkLatencyEntry 600)).2 (by norm_num [mkLatencyEntry, baseZero]) 600⟩

/-- C7: a performance sample is selected for an event exactly when its
timestamp differs from the event time by at most the half-window,
inclusive: 1800 s for failover events and 3600 s for reboot events. -/
theorem c7_window_inclusive (perf : List PerfSample) (p : PerfSample)
    (t : ℤ) (hp : p ∈ perf) :
    (p ∈ failoverRelevant perf t ↔ |p.timestamp - t| ≤ 1800) ∧
    (p ∈ rebootRelevant perf t ↔ |p.timestamp - t| ≤ 3600) := by
  unfold failoverRelevant rebootRelevant relevantWindow
  constructor <;> rw [List.mem_filter] <;> simp [hp]

/-- C7 witness: a sample exactly 1800 s after a failover event is
included; one at 1801 s is excluded. -/
theorem c7_witness :
    ({ timestamp := 1800, ping_latency_ms := 50, ping_drop_rate := 0 } : PerfSample) ∈
      failoverRelevant c7samples 0 ∧
    ({ timestamp := 1801, ping_latency_ms := 50, ping_drop_rate := 0 } : PerfSample) ∉
      failoverRelevant c7samples 0 := by
  constructor
  · exact (c7_window_inclusive c7samples
      { timestamp := 1800, ping_latency_ms := 50, ping_drop_rate := 0 } 0
      (by decide)).1.mpr (by decide)
  · intro hmem
    have := (c7_window_inclusive c7samples
      { timestamp := 1801, ping_latency_ms := 50, ping_drop_rate := 0 } 0
      (by decide)).1.mp hmem
    exact absurd this (by decide)


/-- C3 counterexample: the message `"network starlink"` matches both a
NETWORK keyword and a STARLINK keyword, but the classifier returns the
single string `"NETWORK"` — it does not tag the entry with both
categories. -/
theorem c3_counterexample :
    containsAny (pyLower "network starlink") networkKws = true ∧
    containsAny (pyLower "network starlink") starlinkKws = true ∧
    classifyEvent "pppd" "network starlink" = "NETWORK" :=
  ⟨rfl, rfl, rfl⟩

/-- C3 (amended): the classifier returns a single category — the first
matching one in the order FAILOVER, REBOOT, NETWORK, GPS, STARLINK,
SYSTEM, OTHER — so a message that matches both a NETWORK and a STARLINK
keyword but no FAILOVER or REBOOT keyword is classified `"NETWORK"`
only. -/
theorem c3_first_match_wins (process message : String)
    (hnet : containsAny (pyLower message) networkKws = true)
    (_hstar : containsAny (pyLower message) starlinkKws = true)
    (hfo : containsAny (pyLower message) failoverKws = false)
    (hrb : containsAny (pyLower message) rebootKws = false) :
    classifyEvent process message = "NETWORK" := by
  simp [classifyEvent, hfo, hrb, hnet]

/-- C3 witness. -/
theorem c3_witness : classifyEvent "pppd" "network starlink" = "NETWORK" :=
  c3_first_match_wins "pppd" "network starlink" rfl rfl rfl rfl

/-- C6 counterexample: `fooLine` matches the analyzer syslog pattern and
its timestamp cannot be built (`"Foo"` is no month), yet the analyzer
line parser of `analyze-network-performance.py` discards the line
instead of returning an entry timestamped midnight. -/
theorem c6_counterexample :
    (matchSyslogAnalyzer fooLine).isSome = true ∧
    strptimeSyslog 2024 "Foo 14 10:30:45" = none ∧
    analyzerParseLine fooLine refDate = none :=
  ⟨rfl, rfl, rfl⟩

/-- C6 (amended): on a line that matches the syslog pattern but whose
timestamp cannot be constructed, the analysis-module parser
(`analysis/log_parser.py`) returns the entry with the timestamp set to
midnight of the reference date, while the monolithic analyzer parser
(`analyze-network-performance.py`) returns no entry at all. -/
theorem c6_midnight_fallback (line : String) (d : PyDate)
    (g : ParserGroups) (g2 : AnalyzerGroups) :
    (matchSyslogLogParser line = some g →
      strptimeSyslog d.year g.ts = none →
      (logParserParseLine line d).map (fun e => e.timestamp) = some (midnight d)) ∧
    (matchSyslogAnalyzer line = some g2 →
      strptimeSyslog d.year g2.ts = none →
      analyzerParseLine line d = none) := by
  constructor
  · intro hm ht
    unfold logParserParseLine
    rw [hm]
    simp [ht]
  · intro hm ht
    unfold analyzerParseLine
    rw [hm]
    simp [ht]

/-- C6 witness. -/
theorem c6_witness :
    (logParserParseLine fooLine refDate).map (fun e => e.timestamp) =
      some (midnight refDate) ∧
    analyzerParseLine fooLine refDate = none :=
  ⟨(c6_midnight_fallback fooLine refDate fooGroupsL fooGroupsA).1 rfl rfl,
   (c6_midnight_fallback fooLine refDate fooGroupsL fooGroupsA).2 rfl rfl⟩


/-- Presence of the value of a `float(s) if s else None` cell mirrors
the truthiness of the cell. -/
theorem optFloatCell_isSome {s : String} {v : Option ℚ}
    (h : optFloatCell? s = some v) : v.isSome = pyTruthy s := by
  unfold optFloatCell? at h
  by_cases ht : pyTruthy s <;> simp [ht] at h
  · obtain ⟨q, hq, rfl⟩ := h
    simp [ht]
  · subst h
    simp [ht]

/-- In a parsed GPS block, each of latitude and longitude is present
exactly when its own column is nonempty; a successful GPS parse also
implies the row had at least 20 columns (the unguarded `parts[19]`
subscript succeeded). -/
theorem parseGps_presence (parts : List String) (g : GpsFields)
    (h : parseGps parts = some g) :
    19 < parts.length ∧
    g.latitude.isSome = pyTruthy (parts.getD 18 "") ∧
    g.longitude.isSome = pyTruthy (parts.getD 19 "") := by
  unfold parseGps at h
  cases hlat : optFloatCell? (parts.getD 18 "") with
  | none =>
    rw [hlat] at h
    exact Option.noConfusion h
  | some lat =>
  simp only [hlat] at h
  cases hs19 : parts.get? 19 with
  | none =>
    rw [hs19] at h
    exact Option.noConfusion h
  | some s19 =>
  simp only [hs19] at h
  cases hlon : optFloatCell? s19 with
  | none =>
    rw [hlon] at h
    exact Option.noConfusion h
  | some lon =>
  simp only [hlon] at h
  cases h4 : (if 20 < parts.length then optFloatCell? (parts.getD 20 "")
             else some none) with
  | none =>
    rw [h4] at h
    exact Option.noConfusion h
  | some alt =>
  rw [h4] at h
  cases h5 : (if 21 < parts.length then optFloatCell? (parts.getD 21 "")
             else some none) with
  | none =>
    rw [h5] at h
    exact Option.noConfusion h
  | some spd =>
  rw [h5] at h
  cases h6 : (if 22 < parts.length then optFloatCell? (parts.getD 22 "")
             else some none) with
  | none =>
    rw [h6] at h
    exact Option.noConfusion h
  | some hdg =>
  rw [h6] at h
  cases h7 : (if 24 < parts.length && pyTruthy (parts.getD 24 "") then
             pyInt? (parts.getD 24 "") else some 0) with
  | none =>
    rw [h7] at h
    exact Option.noConfusion h
  | some sats =>
  rw [h7] at h
  cases h8 : (if 25 < parts.length then optFloatCell? (parts.getD 25 "")
             else some none) with
  | none =>
    rw [h8] at h
    exact Option.noConfusion h
  | some acc =>
  rw [h8] at h
  obtain rfl := Option.some.inj h
  obtain ⟨hlen, -⟩ := List.get?_eq_some.mp hs19
  have hcol : parts.getD 19 "" = s19 := by
    rw [List.getD_eq_getElem?_getD, ← List.get?_eq_getElem?, hs19]
    rfl
  refine ⟨hlen, optFloatCell_isSome hlat, ?_⟩
  rw [hcol]
  exact optFloatCell_isSome hlon

/-- A materialized record carries a GPS block only through a successful
`parseGps` on the same row. -/
theorem parsePerformanceRow_gps (parts : List String) (e : PerformanceEntry)
    (g : GpsFields) (h : parsePerformanceRow parts = some e)
    (hg : e.gps = some g) : parseGps parts = some g := by
  unfold parsePerformanceRow at h
  by_cases hlen : 8 ≤ parts.length
  case neg =>
    rw [if_neg hlen] at h
    exact Option.noConfusion h
  rw [if_pos hlen] at h
  cases hb : parseBase parts with
  | none =>
    rw [hb] at h
    exact Option.noConfusion h
  | some base =>
  rw [hb] at h
  cases hx : (if 8 < parts.length then (parseExt parts).map some
             else some none) with
  | none =>
    rw [hx] at h
    exact Option.noConfusion h
  | some ext =>
  rw [hx] at h
  cases hgg : (if 18 < parts.length then (parseGps parts).map some
              else some none) with
  | none =>
    rw [hgg] at h
    exact Option.noConfusion h
  | some gps =>
  rw [hgg] at h
  obtain rfl := Option.some.inj h
  replace hg : gps = some g := hg
  subst hg
  by_cases h18 : 18 < parts.length
  · rw [if_pos h18] at hgg
    cases hq : parseGps parts with
    | none =>
      rw [hq] at hgg
      exact Option.noConfusion hgg
    | some g2 =>
      rw [hq] at hgg
      simp at hgg
      rw [hgg]
  · rw [if_neg h18] at hgg
    exact Option.noConfusion (Option.some.inj hgg)

/-- C2 counterexample: the 26-column row `blankLonRow` — latitude
column nonempty, longitude column blank — materializes a record whose
latitude is present and whose longitude is absent: the two are not
both-present-or-both-absent. -/
theorem c2_counterexample :
    ((parsePerformanceRow (pySplit blankLonRow ',')).bind (fun e => e.gps)).map
      (fun g => (g.latitude.isSome, g.longitude.isSome)) = some (true, false) :=
  rfl

/-- C2 (amended): in every materialized record with a GPS block,
latitude is present exactly when column 18 is nonempty and longitude is
present exactly when column 19 is nonempty — the two presences are
independent, so a record can have exactly one of them set. -/
theorem c2_presence_per_column (parts : List String) (e : PerformanceEntry)
    (g : GpsFields) (h : parsePerformanceRow parts = some e)
    (hg : e.gps = some g) :
    g.latitude.isSome = pyTruthy (parts.getD 18 "") ∧
    g.longitude.isSome = pyTruthy (parts.getD 19 "") := by
  obtain ⟨-, h1, h2⟩ :=
    parseGps_presence parts g (parsePerformanceRow_gps parts e g h hg)
  exact ⟨h1, h2⟩

/-- C2 witness. -/
theorem c2_witness :
    blankLonGps.latitude.isSome = pyTruthy ((pySplit blankLonRow ',').getD 18 "") ∧
    blankLonGps.longitude.isSome = pyTruthy ((pySplit blankLonRow ',').getD 19 "") :=
  c2_presence_per_column (pySplit blankLonRow ',') blankLonEntry blankLonGps rfl rfl

/-- The empirical 95th-percentile latency never exceeds the empirical
99th-percentile latency. -/
theorem latencyP95_le_latencyP99 (data : List PerformanceEntry) :
    latencyP95 data ≤ latencyP99 data := by
  unfold latencyP95 latencyP99 nearestRank
  by_cases he : (latencies data).isEmpty
  · simp [he]
  · rw [if_neg (by simp [he]), if_neg (by simp [he])]
    have hn : 1 ≤ (latencies data).length := by
      rcases l : latencies data with _ | ⟨a, t⟩
      · rw [l] at he
        simp at he
      · simp
    apply sortedAsc_getD_mono
    · exact percentileIndex_mono _ (by norm_num)
    · rw [sortedAsc_length]
      exact percentileIndex_lt _ hn (by norm_num) (by norm_num)

/-- C4 (amended): the recommended thresholds always satisfy
`latency_warning_ms ≤ latency_critical_ms`, but the inequality is not
strict in general: the `int` truncation of the 1.1-scaled percentiles
can collapse them to the same value even when p95 < p99. -/
theorem c4_warning_le_critical (data : List PerformanceEntry)
    (r : RecommendedThresholds)
    (h : generateThresholdRecommendations data = some r) :
    r.latency_warning_ms ≤ r.latency_critical_ms := by
  unfold generateThresholdRecommendations at h
  by_cases hd : data.isEmpty
  · rw [if_pos hd] at h
    exact Option.noConfusion h
  · rw [if_neg hd] at h
    obtain rfl := Option.some.inj h
    have h95 := latencyP95_le_latencyP99 data
    exact pyTrunc_mono (by linarith)

/-- C4 counterexample: on `c4data` the 95th-percentile latency (100) is
strictly below the 99th (100.5), yet the recommended warning and
critical thresholds are both 110 — the strict inequality of the claim
fails. -/
theorem c4_counterexample :
    latencyP95 c4data < latencyP99 c4data ∧
    (generateThresholdRecommendations c4data).map
      (fun r => decide (r.latency_warning_ms < r.latency_critical_ms)) =
      some false := by
  constructor
  · with_unfolding_all decide
  · with_unfolding_all decide

/-- C4 witness. -/
theorem c4_witness : c4rec.latency_warning_ms ≤ c4rec.latency_critical_ms :=
  c4_warning_le_critical c4data c4rec (by with_unfolding_all rfl)

/-- C10: for every nonempty record list, the three nearest-rank
subscripts used by threshold recommendation are strictly below the
lengths of the sorted latency, packet-loss and throughput lists, so the
indexing is always in bounds and the empty-list fallback of
`nearestRank` is the only other branch. -/
theorem c10_percentile_in_bounds (data : List PerformanceEntry)
    (h : data ≠ []) :
    percentileIndex (latencies data).length (95/100) <
      (sortedAsc (latencies data)).length ∧
    percentileIndex (latencies data).length (99/100) <
      (sortedAsc (latencies data)).length ∧
    percentileIndex (packetLosses data).length (95/100) <
      (sortedAsc (packetLosses data)).length ∧
    percentileIndex (throughputs data).length (5/100) <
      (sortedAsc (throughputs data)).length := by
  have hn : 0 < data.length := List.length_pos.mpr h
  have e1 : (latencies data).length = data.length := List.length_map _ _
  have e2 : (packetLosses data).length = data.length := List.length_map _ _
  have e3 : (throughputs data).length = data.length := List.length_map _ _
  refine ⟨?_, ?_, ?_, ?_⟩
  · rw [sortedAsc_length, e1]
    exact percentileIndex_lt _ (by omega) (by norm_num) (by norm_num)
  · rw [sortedAsc_length, e1]
    exact percentileIndex_lt _ (by omega) (by norm_num) (by norm_num)
  · rw [sortedAsc_length, e2]
    exact percentileIndex_lt _ (by omega) (by norm_num) (by norm_num)
  · rw [sortedAsc_length, e3]
    exact percentileIndex_lt _ (by omega) (by norm_num) (by norm_num)

/-- C10 witness. -/
theorem c10_witness :
    percentileIndex (latencies [mkLatencyEntry 0]).length (95/100) <
      (sortedAsc (latencies [mkLatencyEntry 0])).length ∧
    percentileIndex (latencies [mkLatencyEntry 0]).length (99/100) <
      (sortedAsc (latencies [mkLatencyEntry 0])).length ∧
    percentileIndex (packetLosses [mkLatencyEntry 0]).length (95/100) <
      (sortedAsc (packetLosses [mkLatencyEntry 0])).length ∧
    percentileIndex (throughputs [mkLatencyEntry 0]).length (5/100) <
      (sortedAsc (throughputs [mkLatencyEntry 0])).length :=
  c10_percentile_in_bounds [mkLatencyEntry 0] (by simp)

/-- C5 counterexample: ten performance samples all carrying a speed
value ("at least 10") still yield no speed correlations — the source
gates on `len(df) > 10`, not `>= 10`. -/
theorem c5_counterexample :
    (mobileRecords (List.replicate 10 mkMobileEntry)).length = 10 ∧
    speedCorrelations (mobileRecords (List.replicate 10 mkMobileEntry)) =
      none := by
  constructor
  · rfl
  · rfl

/-- C5 (amended): the speed/performance Pearson correlations are
computed exactly when strictly more than 10 samples with a speed value
are available (at least 11); with 10 or fewer they are omitted from the
result, not reported as zero. -/
theorem c5_correlation_gating (mobile : List PerformanceEntry) :
    (10 < mobile.length →
      speedCorrelations mobile = some
        (pearsonR (mobileSpeeds mobile)
           (mobile.map fun p => p.base.ping_latency_ms),
         pearsonR (mobileSpeeds mobile)
           (mobile.map fun p => p.base.ping_drop_rate),
         pearsonR (mobileSpeeds mobile)
           (mobile.map fun p => p.base.downlink_throughput_bps))) ∧
    (mobile.length ≤ 10 → speedCorrelations mobile = none) := by
  constructor
  · intro h
    unfold speedCorrelations
    rw [if_pos h]
  · intro h
    unfold speedCorrelations
    rw [if_neg (by omega)]

/-- C5 witness. -/
theorem c5_witness :
    speedCorrelations (List.replicate 11 mkMobileEntry) = some
      (pearsonR (mobileSpeeds (List.replicate 11 mkMobileEntry))
         ((List.replicate 11 mkMobileEntry).map fun p => p.base.ping_latency_ms),
       pearsonR (mobileSpeeds (List.replicate 11 mkMobileEntry))
         ((List.replicate 11 mkMobileEntry).map fun p => p.base.ping_drop_rate),
       pearsonR (mobileSpeeds (List.replicate 11 mkMobileEntry))
         ((List.replicate 11 mkMobileEntry).map
            fun p => p.base.downlink_throughput_bps)) ∧
    speedCorrelations (List.replicate 10 mkMobileEntry) = none :=
  ⟨(c5_correlation_gating (List.replicate 11 mkMobileEntry)).1 (by simp),
   (c5_correlation_gating (List.replicate 10 mkMobileEntry)).2 (by simp)⟩

end Rutos
